import Mathlib

/- Shallow embedding of the notification delivery core:
   app/services/notification_service.py (NotificationManager, NotificationService),
   app/services/push_service.py (PushService), app/services/email_service.py
   (EmailService), app/models/user_device.py (UserDevice), app/core/config.py.

   Machine time (datetime.utcnow().timestamp()) is modelled as a Nat tick
   supplied by the caller; the Redis backing store is modelled as per-user
   lists of serialized blobs together with an availability flag (when the
   store is unreachable every Redis operation raises). TTL/expiry bookkeeping
   (redis.expire) is not needed by any claim and is omitted. -/

/-- settings.MAX_STORED_NOTIFICATIONS (app/core/config.py line 22). -/
def MAX_STORED_NOTIFICATIONS : Nat := 100

/-- Event payload: a string-keyed mapping; only string-valued entries are
relevant to the core (it reads at most the "title" and "body" keys). -/
abbrev Payload := List (String × String)

/-- The message dict built by NotificationService.send_notification:
type, timestamp (creation tick), data. -/
structure Message where
  type : String
  timestamp : Nat
  data : Payload
deriving DecidableEq, Repr

/-- One stored notification record: the dict serialized by
NotificationManager._store_notification: id, timestamp, data. -/
structure StoredNotification where
  id : String
  timestamp : Nat
  data : Message
deriving DecidableEq, Repr

/-- A serialized list element in Redis: either a blob that json.loads
deserializes to a StoredNotification, or a corrupt blob on which
json.loads raises. _store_notification only ever writes valid blobs. -/
inductive Blob
  | valid (n : StoredNotification)
  | corrupt
deriving DecidableEq, Repr

/-- Redis backing store: per-user_id list (key "notifications:" ++ user_id,
injective in user_id, so lists are indexed by user_id directly), plus an
availability flag; when false every operation raises. -/
structure RedisState where
  available : Bool
  lists : Nat → List Blob

/-- Functional update of the per-user lists. -/
def updList (lists : Nat → List Blob) (uid : Nat) (l : List Blob) : Nat → List Blob :=
  fun u => if u = uid then l else lists u

/-- Little-endian decimal digits with structural fuel (fuel ≥ n suffices). -/
def natDigitsRevFuel : Nat → Nat → List Nat
  | 0, _ => []
  | fuel + 1, n => if n = 0 then [] else (n % 10) :: natDigitsRevFuel fuel (n / 10)

/-- Decimal rendering of a Nat as a character list, as Python str() renders
the integer part of a timestamp. -/
def natStrChars (n : Nat) : List Char :=
  if n = 0 then ['0'] else ((natDigitsRevFuel n n).map Nat.digitChar).reverse

/-- notification_id = f-string of user_id, ":", timestamp
(notification_service.py line 67). -/
def mkNotificationId (uid ts : Nat) : String :=
  String.mk (natStrChars uid ++ [':'] ++ natStrChars ts)

/-- NotificationManager._store_notification (lines 63-91): build the id from
user_id and the current timestamp, lpush the serialized record onto the
user's list, ltrim the list to indices 0 .. MAX_STORED_NOTIFICATIONS - 1
(take the first MAX_STORED_NOTIFICATIONS), reset the TTL (not modelled).
Raises (Except.error) when the backing store is unreachable; the except
clause re-raises, so the error is surfaced to the caller. -/
def store_notification (r : RedisState) (uid : Nat) (ts : Nat) (message : Message) :
    Except Unit (String × RedisState) :=
  if r.available then
    let nid := mkNotificationId uid ts
    let entry : StoredNotification := ⟨nid, ts, message⟩
    let newList := (Blob.valid entry :: r.lists uid).take MAX_STORED_NOTIFICATIONS
    .ok (nid, { r with lists := updList r.lists uid newList })
  else .error ()

/-- Redis LRANGE key 0 stop, negative stop counting from the end
(stop = -1 is the last element); start index is always 0 here. -/
def lrangeFromZero (l : List Blob) (stop : Int) : List Blob :=
  let stopIdx : Int := if stop < 0 then (l.length : Int) + stop else stop
  if stopIdx < 0 then [] else l.take (stopIdx.toNat + 1)

/-- The list comprehension json.loads over the fetched range: raises (none)
at the first corrupt blob. -/
def deserializeAll : List Blob → Option (List StoredNotification)
  | [] => some []
  | Blob.valid n :: bs => (deserializeAll bs).map (fun l => n :: l)
  | Blob.corrupt :: _ => none

/-- The body of NotificationManager.get_pending_notifications before the
except clause: lrange(key, 0, limit - 1) then json.loads each element;
raises (none) when the store is unreachable or any blob is corrupt. -/
def get_pending_raw (r : RedisState) (uid : Nat) (limit : Nat) :
    Option (List StoredNotification) :=
  if r.available then deserializeAll (lrangeFromZero (r.lists uid) ((limit : Int) - 1))
  else none

/-- NotificationManager.get_pending_notifications (lines 93-101): any
exception is caught and the empty list returned. -/
def get_pending_notifications (r : RedisState) (uid : Nat) (limit : Nat) :
    List StoredNotification :=
  (get_pending_raw r uid limit).getD []

/-- A live WebSocket connection handle: an identity plus whether
connection.send_json succeeds on it (false = send_json raises). -/
structure Conn where
  id : Nat
  sendOk : Bool
deriving DecidableEq, Repr

/-- The in-process connection registry self.active_connections: a user_id
is a dict key iff the map returns some list. -/
def Reg := Nat → Option (List Conn)

/-- NotificationManager.connect (lines 30-35): if user_id is not a key,
create it with []; then append the websocket. -/
def connect (reg : Reg) (ws : Conn) (uid : Nat) : Reg :=
  fun u => if u = uid then some (((reg uid).getD []) ++ [ws]) else reg u

/-- NotificationManager.disconnect (lines 37-41):
active_connections[user_id].remove(websocket) raises KeyError when user_id
is not a key and ValueError when the websocket is not in the list (both
modelled as none); list.remove drops the first occurrence; if the list
becomes empty the key is deleted. -/
def disconnect (reg : Reg) (ws : Conn) (uid : Nat) : Option Reg :=
  match reg uid with
  | none => none
  | some conns =>
    if ws ∈ conns then
      let conns' := conns.erase ws
      if conns' = [] then some (fun u => if u = uid then none else reg u)
      else some (fun u => if u = uid then some conns' else reg u)
    else none

/-- The broadcast loop of NotificationManager.send_notification (lines
50-56): send_json to each connection in order; a raising send is caught and
the loop continues. Returns (connections attempted, connections that
accepted the message). -/
def broadcastLoop : List Conn → List Conn × List Conn
  | [] => ([], [])
  | c :: cs =>
    let (att, del) := broadcastLoop cs
    (c :: att, if c.sendOk then c :: del else del)

/-- Outcome of one NotificationManager.send_notification call: Optional id
(None when storing raised), the registry and store afterwards, and the
connections the broadcast attempted / delivered to. -/
structure ManagerSendOutcome where
  result : Option String
  reg : Reg
  redis : RedisState
  wsAttempts : List Conn
  wsDelivered : List Conn

/-- NotificationManager.send_notification (lines 43-61): store the
notification (raising aborts to the except clause, which returns None
without touching the registry or broadcasting); on success broadcast to
every active connection of the user, per-connection failures caught, and
return the id. -/
def manager_send (reg : Reg) (r : RedisState) (uid : Nat) (msg : Message) (ts : Nat) :
    ManagerSendOutcome :=
  match store_notification r uid ts msg with
  | .error _ => ⟨none, reg, r, [], []⟩
  | .ok (nid, r') =>
    let conns := (reg uid).getD []
    let (att, del) := broadcastLoop conns
    ⟨some nid, reg, r', att, del⟩

/-- app/models/user_device.py NotificationChannel. -/
inductive NotificationChannel
  | email
  | web_push
  | fcm
deriving DecidableEq, Repr

/-- The string stored in UserDevice.push_subscription, as json.loads sees
it: either malformed (json.loads raises) or valid JSON whose eventual Web
Push delivery by the external transport succeeds iff deliverOk (an expired
subscription is valid JSON with deliverOk = false). -/
inductive SubBlob
  | malformed
  | valid (deliverOk : Bool)
deriving DecidableEq, Repr

/-- app/models/user_device.py UserDevice, with its owning user's email
(device.user.email) inlined and with the outcome of each external transport
attached (emailOk: would aiosmtplib deliver; fcmOk: would the FCM gateway
deliver). none models an absent or empty (falsy) credential. -/
structure UserDevice where
  id : Nat
  user_id : Nat
  notification_channel : NotificationChannel
  push_subscription : Option SubBlob
  fcm_token : Option String
  is_active : Bool
  userEmail : Option String
  emailOk : Bool
  fcmOk : Bool
deriving DecidableEq, Repr

/-- NotificationService._get_user_devices (lines 150-158): select UserDevice
filtered by UserDevice.user_id == user_id only. -/
def get_user_devices (db : List UserDevice) (uid : Nat) : List UserDevice :=
  db.filter (fun d => d.user_id = uid)

/-- The Python dict.get with a default: data.get(key, default) returns the
stored value whenever the key is present, even if that value is falsy. -/
def dictGetD (data : Payload) (key : String) (dflt : String) : String :=
  match data.lookup key with
  | some v => v
  | none => dflt

/-- PushService.send_notification line 97: data.get of "title" with default
"New Notification". -/
def pushTitle (data : Payload) : String :=
  dictGetD data "title" "New Notification"

/-- PushService.send_notification line 98: data.get of "body" with default
"You have a new notification". -/
def pushBody (data : Payload) : String :=
  dictGetD data "body" "You have a new notification"

/-- Modelled from the spec (section 4.3): the derivation
"payload.get of the key, or-else the default" under Python or-semantics,
where a present but falsy (empty) value also falls back to the default.
Used only to compare the spec's stated policy with the code's dictGetD. -/
def specOrGet (data : Payload) (key : String) (dflt : String) : String :=
  match data.lookup key with
  | some v => if v = "" then dflt else v
  | none => dflt

/-- The provider-level payload both Web Push and FCM construct. -/
structure PushPayload where
  title : String
  body : String
  data : Payload
deriving DecidableEq, Repr

/-- PushService.send_notification (push_service.py lines 88-120): derive
title and body, delegate to send_web_push / send_fcm, each of which catches
every transport exception and returns a Bool; the whole function never
raises. transportOk is the external transport's outcome. -/
def push_send_notification (data : Payload) (transportOk : Bool) : Bool :=
  let _payload : PushPayload := ⟨pushTitle data, pushBody data, data⟩
  transportOk

/-- EmailService.send_notification_email (email_service.py lines 61-89):
unknown notification types return False without sending; otherwise
send_email catches every exception and reports the SMTP outcome. -/
def send_notification_email (ntype : String) (smtpOk : Bool) : Bool :=
  if ntype = "document_processed" ∨ ntype = "task_completed" then smtpOk else false

/-- Outcome of one per-device send in the NotificationService fan-out loop:
skipped (missing credential, the guard returns early), delivered with the
channel's reported Bool, or raised (an uncaught exception: json.loads on a
malformed push_subscription, notification_service.py line 181). -/
inductive DeviceSendResult
  | skipped
  | delivered (ok : Bool)
  | raised
deriving DecidableEq, Repr

/-- One iteration of the device loop in NotificationService.send_notification
(lines 136-142), dispatching on notification_channel to
_send_email_notification / _send_web_push_notification /
_send_fcm_notification (lines 160-196). -/
def send_to_device (msg : Message) (d : UserDevice) : DeviceSendResult :=
  match d.notification_channel with
  | .email =>
    match d.userEmail with
    | none => .skipped
    | some _ => .delivered (send_notification_email msg.type d.emailOk)
  | .web_push =>
    match d.push_subscription with
    | none => .skipped
    | some .malformed => .raised
    | some (.valid ok) => .delivered (push_send_notification msg.data ok)
  | .fcm =>
    match d.fcm_token with
    | none => .skipped
    | some _ => .delivered (push_send_notification msg.data d.fcmOk)

/-- The device fan-out loop: sends in order; a raising send aborts the loop
(the exception propagates to the enclosing try). Returns the trace of
attempted sends and whether the loop raised. -/
def fanoutDevices (msg : Message) : List UserDevice → List (UserDevice × DeviceSendResult) × Bool
  | [] => ([], false)
  | d :: ds =>
    match send_to_device msg d with
    | .raised => ([(d, .raised)], true)
    | res =>
      let (tr, b) := fanoutDevices msg ds
      ((d, res) :: tr, b)

/-- Outcome of one NotificationService.send_notification call. -/
structure ServiceSendOutcome where
  result : Option String
  reg : Reg
  redis : RedisState
  wsAttempts : List Conn
  devAttempts : List (UserDevice × DeviceSendResult)
  raised : Bool

/-- NotificationService.send_notification (lines 114-148): build the
message, call NotificationManager.send_notification (which never raises),
then inside a try load the user's devices and send through each configured
channel; any exception in that block is caught and None returned; otherwise
the manager's notification_id is returned. -/
def service_send (reg : Reg) (r : RedisState) (db : List UserDevice) (uid : Nat)
    (ntype : String) (data : Payload) (ts : Nat) : ServiceSendOutcome :=
  let msg : Message := ⟨ntype, ts, data⟩
  let o := manager_send reg r uid msg ts
  let devices := get_user_devices db uid
  let (devTrace, raisedFlag) := fanoutDevices msg devices
  let result := if raisedFlag then none else o.result
  ⟨result, o.reg, o.redis, o.wsAttempts, devTrace, raisedFlag⟩

/-- Per-user append of a whole sequence of (timestamp, message) pairs via
_store_notification; a raising append leaves the store unchanged (it
cannot raise while the store is available). -/
def appendAll (r : RedisState) (uid : Nat) : List (Nat × Message) → RedisState
  | [] => r
  | (ts, m) :: rest =>
    match store_notification r uid ts m with
    | .ok (_, r') => appendAll r' uid rest
    | .error _ => r

/-- The stored records that a sequence of (timestamp, message) appends for
one user produces, in insertion order. -/
def mkStoreds (uid : Nat) : List (Nat × Message) → List StoredNotification :=
  List.map (fun p => ⟨mkNotificationId uid p.1, p.1, p.2⟩)

/-- The registry invariant of the active-connections dict: every present
key maps to a non-empty connection list. -/
def RegInvariant (reg : Reg) : Prop :=
  ∀ u l, reg u = some l → l ≠ []

/-- Value of a little-endian decimal digit list (used to show the decimal
rendering is injective). -/
def ofDigitsRev : List Nat → Nat
  | [] => 0
  | d :: ds => d + 10 * ofDigitsRev ds

/- Concrete states used to instantiate the theorems. -/

/-- A connection whose send_json succeeds. -/
def cA : Conn := ⟨1, true⟩

/-- A connection whose send_json raises. -/
def cB : Conn := ⟨2, false⟩

/-- A second connection whose send_json succeeds. -/
def cC : Conn := ⟨3, true⟩

/-- Registry with no keys. -/
def regEmpty : Reg := fun _ => none

/-- Registry where user 1 has the single connection cA. -/
def regOne : Reg := fun u => if u = 1 then some [cA] else none

/-- Reachable, empty backing store. -/
def redisUp : RedisState := ⟨true, fun _ => []⟩

/-- Unreachable backing store. -/
def redisDown : RedisState := ⟨false, fun _ => []⟩

/-- Reachable store holding one corrupt blob for every user. -/
def redisCorrupt : RedisState := ⟨true, fun _ => [Blob.corrupt]⟩

/-- A concrete message of a known notification type. -/
def mA : Message := ⟨"document_processed", 5, []⟩

/-- A second, distinct concrete message. -/
def mB : Message := ⟨"task_completed", 5, []⟩

/-- The store state after appending mA for user 1 at tick 5. -/
def rAfterA : RedisState :=
  ((store_notification redisUp 1 5 mA).toOption.map Prod.snd).getD redisUp

/-- An Email device of user 1 whose user has a valid address and whose SMTP
transport succeeds. -/
def dEmail : UserDevice := ⟨10, 1, .email, none, none, true, some "a", true, true⟩

/-- A Web Push device of user 1 whose stored subscription is valid JSON but
expired: the external transport reports failure. -/
def dPushExpired : UserDevice := ⟨11, 1, .web_push, some (.valid false), none, true, none, true, true⟩

/-- A Web Push device of user 1 whose stored subscription is not valid
JSON: json.loads raises on it. -/
def dPushMalformed : UserDevice := ⟨12, 1, .web_push, some .malformed, none, true, none, true, true⟩

/-- An Email device of user 1 with is_active = false. -/
def dInactive : UserDevice := ⟨13, 1, .email, none, none, false, some "a", true, true⟩

/-- Three appends for user 1 in insertion order. -/
def items3 : List (Nat × Message) := [(1, mA), (2, mB), (3, mA)]

/- Helper lemmas shared by the claim theorems. -/

/-- Taking n of an appended list absorbs an inner take n on the right part. -/
theorem take_absorb {α : Type} (n : Nat) (xs ys : List α) :
    (xs ++ ys.take n).take n = (xs ++ ys).take n := by
  rw [List.take_append_eq_append_take, List.take_append_eq_append_take, List.take_take]
  have h : min (n - xs.length) n = n - xs.length := by omega
  rw [h]

/-- _store_notification on a reachable store: id assigned from user id and
timestamp, record pushed to the front, list truncated. -/
theorem store_notification_ok (r : RedisState) (uid ts : Nat) (m : Message)
    (h : r.available = true) :
    store_notification r uid ts m =
      .ok (mkNotificationId uid ts,
        ⟨true, updList r.lists uid
          ((Blob.valid ⟨mkNotificationId uid ts, ts, m⟩ :: r.lists uid).take
            MAX_STORED_NOTIFICATIONS)⟩) := by
  simp [store_notification, h]

/-- _store_notification on an unreachable store raises. -/
theorem store_notification_err (r : RedisState) (uid ts : Nat) (m : Message)
    (h : r.available = false) :
    store_notification r uid ts m = .error () := by
  simp [store_notification, h]

/-- Unfolding one append of appendAll on a reachable store. -/
theorem appendAll_cons_ok (r : RedisState) (uid ts : Nat) (m : Message)
    (rest : List (Nat × Message)) (h : r.available = true) :
    appendAll r uid ((ts, m) :: rest) =
      appendAll ⟨true, updList r.lists uid
        ((Blob.valid ⟨mkNotificationId uid ts, ts, m⟩ :: r.lists uid).take
          MAX_STORED_NOTIFICATIONS)⟩ uid rest := by
  show (match store_notification r uid ts m with
    | .ok (_, r') => appendAll r' uid rest
    | .error _ => r) = _
  rw [store_notification_ok r uid ts m h]

/-- After a sequence of appends the user's stored list is the reversed
insertion sequence pushed onto the initial list, truncated to the cap. -/
theorem appendAll_lists (uid : Nat) (items : List (Nat × Message)) (r : RedisState)
    (h : r.available = true)
    (hlen : (r.lists uid).length ≤ MAX_STORED_NOTIFICATIONS) :
    (appendAll r uid items).available = true ∧
    (appendAll r uid items).lists uid =
      (((mkStoreds uid items).map Blob.valid).reverse ++ r.lists uid).take
        MAX_STORED_NOTIFICATIONS := by
  induction items generalizing r with
  | nil =>
    refine ⟨h, ?_⟩
    simp [appendAll, mkStoreds, List.take_of_length_le hlen]
  | cons p rest ih =>
    obtain ⟨ts, m⟩ := p
    rw [appendAll_cons_ok r uid ts m rest h]
    have h1 : (RedisState.mk true (updList r.lists uid
        ((Blob.valid ⟨mkNotificationId uid ts, ts, m⟩ :: r.lists uid).take
          MAX_STORED_NOTIFICATIONS))).lists uid =
        (Blob.valid ⟨mkNotificationId uid ts, ts, m⟩ :: r.lists uid).take
          MAX_STORED_NOTIFICATIONS := by
      simp [updList]
    have h2 := ih (RedisState.mk true (updList r.lists uid
        ((Blob.valid ⟨mkNotificationId uid ts, ts, m⟩ :: r.lists uid).take
          MAX_STORED_NOTIFICATIONS))) rfl (by rw [h1]; simp [List.length_take])
    refine ⟨h2.1, ?_⟩
    rw [h2.2, h1, take_absorb]
    congr 1
    simp [mkStoreds, List.reverse_cons, List.append_assoc]

/-- Deserializing a list of valid blobs succeeds with the records. -/
theorem deserializeAll_map_valid (ns : List StoredNotification) :
    deserializeAll (ns.map Blob.valid) = some ns := by
  induction ns with
  | nil => rfl
  | cons n rest ih => simp [deserializeAll, ih]

/-- Deserializing any range containing a corrupt blob raises. -/
theorem deserializeAll_corrupt (bs : List Blob) (h : Blob.corrupt ∈ bs) :
    deserializeAll bs = none := by
  induction bs with
  | nil => cases h
  | cons b rest ih =>
    cases b with
    | corrupt => rfl
    | valid n =>
      have : Blob.corrupt ∈ rest := by
        cases h with
        | tail _ h' => exact h'
      simp [deserializeAll, ih this]

/-- LRANGE 0 (limit-1) with a positive limit takes the first limit items. -/
theorem lrangeFromZero_pos (l : List Blob) (limit : Nat) (h : 1 ≤ limit) :
    lrangeFromZero l ((limit : Int) - 1) = l.take limit := by
  have h1 : ¬ ((limit : Int) - 1 < 0) := by omega
  have h2 : ((limit : Int) - 1).toNat + 1 = limit := by omega
  simp only [lrangeFromZero, if_neg h1, h2]

/-- The broadcast loop attempts every connection in order and delivers to
exactly those whose send succeeds. -/
theorem broadcastLoop_spec (conns : List Conn) :
    broadcastLoop conns = (conns, conns.filter (fun c => c.sendOk)) := by
  induction conns with
  | nil => rfl
  | cons c cs ih =>
    by_cases hc : c.sendOk <;> simp [broadcastLoop, ih, List.filter_cons, hc]

/-- When no per-device send raises, the fan-out trace covers exactly the
device list in order. -/
theorem fanout_no_raise_trace (msg : Message) (ds : List UserDevice)
    (h : (fanoutDevices msg ds).2 = false) :
    (fanoutDevices msg ds).1.map Prod.fst = ds := by
  induction ds with
  | nil => rfl
  | cons d rest ih =>
    cases hs : send_to_device msg d with
    | raised => simp [fanoutDevices, hs] at h
    | skipped =>
      simp only [fanoutDevices, hs] at h ⊢
      simp [ih h]
    | delivered ok =>
      simp only [fanoutDevices, hs] at h ⊢
      simp [ih h]

/-- The fan-out over a non-empty device list attempts at least one send. -/
theorem fanout_cons_ne_nil (msg : Message) (d : UserDevice) (ds : List UserDevice) :
    (fanoutDevices msg (d :: ds)).1 ≠ [] := by
  cases hs : send_to_device msg d <;> simp [fanoutDevices, hs]

/-- The decimal digit expansion is a left inverse of the digit value. -/
theorem natDigitsRevFuel_spec (fuel : Nat) :
    ∀ n, n ≤ fuel → ofDigitsRev (natDigitsRevFuel fuel n) = n := by
  induction fuel with
  | zero =>
    intro n hn
    interval_cases n
    rfl
  | succ f ih =>
    intro n hn
    by_cases h0 : n = 0
    · subst h0; simp [natDigitsRevFuel, ofDigitsRev]
    · have hdiv : n / 10 ≤ f := by
        have : n / 10 < n := Nat.div_lt_self (Nat.pos_of_ne_zero h0) (by omega)
        omega
      simp only [natDigitsRevFuel, h0, if_neg, ite_false, ofDigitsRev, ih _ hdiv]
      omega

/-- Every digit produced by the expansion is below 10. -/
theorem natDigitsRevFuel_lt10 (fuel : Nat) :
    ∀ n d, d ∈ natDigitsRevFuel fuel n → d < 10 := by
  induction fuel with
  | zero => intro n d h; simp [natDigitsRevFuel] at h
  | succ f ih =>
    intro n d h
    by_cases h0 : n = 0
    · subst h0; simp [natDigitsRevFuel] at h
    · simp only [natDigitsRevFuel, h0, if_neg, ite_false, List.mem_cons] at h
      rcases h with h | h
      · omega
      · exact ih _ _ h

/-- digitChar is injective on digits. -/
theorem digitChar_inj (a b : Nat) (ha : a < 10) (hb : b < 10)
    (h : Nat.digitChar a = Nat.digitChar b) : a = b := by
  interval_cases a <;> interval_cases b <;> revert h <;> decide

/-- Mapping digitChar over digit lists is injective. -/
theorem map_digitChar_inj : ∀ (xs ys : List Nat), (∀ d ∈ xs, d < 10) →
    (∀ d ∈ ys, d < 10) → xs.map Nat.digitChar = ys.map Nat.digitChar → xs = ys := by
  intro xs
  induction xs with
  | nil =>
    intro ys _ _ h
    cases ys with
    | nil => rfl
    | cons y ys => simp at h
  | cons x xs ih =>
    intro ys hx hy h
    cases ys with
    | nil => simp at h
    | cons y ys =>
      simp only [List.map_cons, List.cons.injEq] at h
      have hxy : x = y := digitChar_inj x y (hx x (by simp)) (hy y (by simp)) h.1
      rw [hxy, ih ys (fun d hd => hx d (by simp [hd])) (fun d hd => hy d (by simp [hd])) h.2]

/-- Only zero renders to the single character zero. -/
theorem natStrChars_eq_zero (n : Nat) (h : natStrChars n = ['0']) : n = 0 := by
  by_cases hn : n = 0
  · exact hn
  · exfalso
    rw [natStrChars, if_neg hn] at h
    have h' : (natDigitsRevFuel n n).map Nat.digitChar = ['0'] := by
      have := congrArg List.reverse h
      simpa using this
    cases hd : natDigitsRevFuel n n with
    | nil => rw [hd] at h'; simp at h'
    | cons d ds =>
      rw [hd] at h'
      simp only [List.map_cons, List.cons.injEq] at h'
      obtain ⟨h1, h2⟩ := h'
      have hds : ds = [] := by simpa using h2
      have hd10 : d < 10 := natDigitsRevFuel_lt10 n n d (by rw [hd]; simp)
      have hd0 : d = 0 := digitChar_inj d 0 hd10 (by omega) (by rw [h1]; rfl)
      have hv := natDigitsRevFuel_spec n n (le_refl n)
      rw [hd, hds, hd0] at hv
      simp [ofDigitsRev] at hv
      exact hn hv.symm

/-- The decimal rendering of a Nat is injective. -/
theorem natStrChars_inj (n m : Nat) (h : natStrChars n = natStrChars m) : n = m := by
  by_cases hn : n = 0 <;> by_cases hm : m = 0
  · omega
  · have : m = 0 := natStrChars_eq_zero m (by rw [← h, hn]; rfl)
    omega
  · have : n = 0 := natStrChars_eq_zero n (by rw [h, hm]; rfl)
    omega
  · rw [natStrChars, if_neg hn, natStrChars, if_neg hm] at h
    have h' := List.reverse_injective h
    have hdig := map_digitChar_inj _ _ (fun d hd => natDigitsRevFuel_lt10 n n d hd)
      (fun d hd => natDigitsRevFuel_lt10 m m d hd) h'
    have h1 := natDigitsRevFuel_spec n n (le_refl n)
    have h2 := natDigitsRevFuel_spec m m (le_refl m)
    rw [hdig, h2] at h1
    exact h1.symm

/-- For a fixed user the notification id determines the timestamp. -/
theorem mkNotificationId_inj_ts (u t1 t2 : Nat)
    (h : mkNotificationId u t1 = mkNotificationId u t2) : t1 = t2 := by
  have h' : natStrChars u ++ [':'] ++ natStrChars t1 =
      natStrChars u ++ [':'] ++ natStrChars t2 := congrArg String.data h
  rw [List.append_assoc, List.append_assoc] at h'
  have h'' := List.append_cancel_left h'
  simp only [List.singleton_append, List.cons.injEq] at h''
  exact natStrChars_inj t1 t2 h''.2

/-- disconnect raises (KeyError) when the user has no registry key. -/
theorem disconnect_no_key (reg : Reg) (ws : Conn) (uid : Nat)
    (h : reg uid = none) : disconnect reg ws uid = none := by
  simp [disconnect, h]

/-- disconnect raises (ValueError) when the connection is not registered. -/
theorem disconnect_not_mem (reg : Reg) (ws : Conn) (uid : Nat) (conns : List Conn)
    (h : reg uid = some conns) (hm : ws ∉ conns) : disconnect reg ws uid = none := by
  simp [disconnect, h, hm]

/-- disconnect of the user's last connection deletes the user's key. -/
theorem disconnect_mem_last (reg : Reg) (ws : Conn) (uid : Nat) (conns : List Conn)
    (h : reg uid = some conns) (hm : ws ∈ conns) (he : conns.erase ws = []) :
    disconnect reg ws uid = some (fun u => if u = uid then none else reg u) := by
  simp [disconnect, h, hm, he]

/-- disconnect removes the first occurrence, keeping the key when
connections remain. -/
theorem disconnect_mem_rest (reg : Reg) (ws : Conn) (uid : Nat) (conns : List Conn)
    (h : reg uid = some conns) (hm : ws ∈ conns) (he : conns.erase ws ≠ []) :
    disconnect reg ws uid =
      some (fun u => if u = uid then some (conns.erase ws) else reg u) := by
  simp [disconnect, h, hm, he]

/- Claim theorems. -/

/-- C1 counterexample: with the backing store unreachable and one Email
device registered, send returns None and skips the broadcast, yet the Email
Channel Sender IS invoked: the per-device fan-out is attempted, refuting
the claim that no Channel Sender delivery happens after a persist failure. -/
theorem persist_failed_fanout_cex :
    (service_send regOne redisDown [dEmail] 1 "document_processed" [] 5).result = none ∧
    (service_send regOne redisDown [dEmail] 1 "document_processed" [] 5).wsAttempts = [] ∧
    (service_send regOne redisDown [dEmail] 1 "document_processed" [] 5).devAttempts =
      [(dEmail, .delivered true)] := by
  refine ⟨by decide, by decide, by decide⟩

/-- C1 (amended): if Store.append fails, send returns a failure indicator
(None, no event id) and the live-connection broadcast is not invoked, but
the per-device channel fan-out IS still attempted: the device trace equals
the full fan-out over the user's loaded devices and is non-empty whenever
the user has a registered device. -/
theorem persist_failed_no_broadcast (reg : Reg) (r : RedisState) (db : List UserDevice)
    (uid : Nat) (ntype : String) (data : Payload) (ts : Nat)
    (h : r.available = false) :
    (service_send reg r db uid ntype data ts).result = none ∧
    (service_send reg r db uid ntype data ts).wsAttempts = [] ∧
    (service_send reg r db uid ntype data ts).devAttempts =
      (fanoutDevices ⟨ntype, ts, data⟩ (get_user_devices db uid)).1 ∧
    (get_user_devices db uid ≠ [] →
      (service_send reg r db uid ntype data ts).devAttempts ≠ []) := by
  have hstore := store_notification_err r uid ts ⟨ntype, ts, data⟩ h
  refine ⟨?_, ?_, ?_, ?_⟩
  · simp [service_send, manager_send, hstore]
  · simp [service_send, manager_send, hstore]
  · simp [service_send, manager_send, hstore]
  · intro hne
    cases hd : get_user_devices db uid with
    | nil => exact absurd hd hne
    | cons d ds =>
      simp only [service_send, manager_send, hstore, hd]
      simpa using fanout_cons_ne_nil ⟨ntype, ts, data⟩ d ds

/-- C1 witness: concrete persist failure with a live connection and a
device registered. -/
theorem persist_failed_no_broadcast_witness :
    (service_send regOne redisDown [dEmail] 1 "t" [] 5).result = none ∧
    (service_send regOne redisDown [dEmail] 1 "t" [] 5).wsAttempts = [] :=
  ⟨(persist_failed_no_broadcast regOne redisDown [dEmail] 1 "t" [] 5 rfl).1,
   (persist_failed_no_broadcast regOne redisDown [dEmail] 1 "t" [] 5 rfl).2.1⟩

/-- C2 counterexample: Store.append succeeds (the event is in the store
afterwards), the user has one Email device (delivered) and one Web Push
device whose stored subscription is malformed (not valid JSON): json.loads
raises, the exception is caught by the service, and send returns None
instead of the assigned event id — refuting "returns the event id
regardless of how channel deliveries fail". -/
theorem store_success_return_cex :
    (service_send regOne redisUp [dEmail, dPushMalformed] 1 "document_processed" [] 5).result
      = none ∧
    (service_send regOne redisUp [dEmail, dPushMalformed] 1 "document_processed" [] 5).redis.lists 1
      = [Blob.valid ⟨mkNotificationId 1 5, 5, ⟨"document_processed", 5, []⟩⟩] ∧
    (service_send regOne redisUp [dEmail, dPushMalformed] 1 "document_processed" [] 5).devAttempts
      = [(dEmail, .delivered true), (dPushMalformed, .raised)] := by
  refine ⟨by decide, by decide, by decide⟩

/-- C2 (amended): when Store.append succeeds, send returns the assigned
event id provided no per-device delivery raises an exception; deliveries
that merely report failure (return false), such as an expired Web Push
subscription, do not affect the result. If a delivery raises (a stored Web
Push subscription that is not valid JSON), send returns None instead. -/
theorem store_success_returns_id (reg : Reg) (r : RedisState) (db : List UserDevice)
    (uid : Nat) (ntype : String) (data : Payload) (ts : Nat)
    (h : r.available = true) :
    ((fanoutDevices ⟨ntype, ts, data⟩ (get_user_devices db uid)).2 = false →
      (service_send reg r db uid ntype data ts).result = some (mkNotificationId uid ts)) ∧
    ((fanoutDevices ⟨ntype, ts, data⟩ (get_user_devices db uid)).2 = true →
      (service_send reg r db uid ntype data ts).result = none) := by
  have hstore := store_notification_ok r uid ts ⟨ntype, ts, data⟩ h
  constructor <;> intro hf <;> simp [service_send, manager_send, hstore, hf]

/-- C2 witness: the spec's channel-independence scenario — one Email device
with a valid address and one Web Push device with an expired (valid JSON,
failing) subscription; send still returns the event id. -/
theorem store_success_returns_id_witness :
    (service_send regOne redisUp [dEmail, dPushExpired] 1 "document_processed" [] 5).result =
      some (mkNotificationId 1 5) :=
  (store_success_returns_id regOne redisUp [dEmail, dPushExpired] 1
    "document_processed" [] 5 rfl).1 (by decide)

/-- C3: starting from an empty stream on a reachable store, after any
sequence of appends, list returns the stored events most-recent first
(the reversed insertion sequence truncated to the configured cap, then to
the limit), and when the number of appends exceeds the cap, listing with
that number returns exactly the cap's worth of most-recent events. -/
theorem store_list_reverse_order (r : RedisState) (uid : Nat)
    (items : List (Nat × Message)) (limit : Nat)
    (hav : r.available = true) (h0 : r.lists uid = []) (hlim : 1 ≤ limit) :
    get_pending_notifications (appendAll r uid items) uid limit =
      ((mkStoreds uid items).reverse.take MAX_STORED_NOTIFICATIONS).take limit ∧
    (MAX_STORED_NOTIFICATIONS < items.length →
      get_pending_notifications (appendAll r uid items) uid items.length =
        (mkStoreds uid items).reverse.take MAX_STORED_NOTIFICATIONS ∧
      (get_pending_notifications (appendAll r uid items) uid items.length).length =
        MAX_STORED_NOTIFICATIONS) := by
  obtain ⟨hav', hl⟩ := appendAll_lists uid items r hav (by rw [h0]; simp)
  rw [h0, List.append_nil] at hl
  have hmapped : (appendAll r uid items).lists uid =
      ((mkStoreds uid items).reverse.take MAX_STORED_NOTIFICATIONS).map Blob.valid := by
    rw [hl, ← List.map_reverse, List.map_take]
  have key : ∀ lim, 1 ≤ lim →
      get_pending_notifications (appendAll r uid items) uid lim =
        ((mkStoreds uid items).reverse.take MAX_STORED_NOTIFICATIONS).take lim := by
    intro lim hl1
    rw [get_pending_notifications, get_pending_raw, if_pos hav', lrangeFromZero_pos _ _ hl1,
      hmapped, ← List.map_take, deserializeAll_map_valid]
    rfl
  refine ⟨key limit hlim, ?_⟩
  intro hbig
  have hlen1 : 1 ≤ items.length := by
    have : 0 < MAX_STORED_NOTIFICATIONS := by decide
    omega
  have htaken : ((mkStoreds uid items).reverse.take MAX_STORED_NOTIFICATIONS).length =
      MAX_STORED_NOTIFICATIONS := by
    rw [List.length_take, List.length_reverse]
    have : (mkStoreds uid items).length = items.length := List.length_map _ _
    omega
  have heq : ((mkStoreds uid items).reverse.take MAX_STORED_NOTIFICATIONS).take items.length =
      (mkStoreds uid items).reverse.take MAX_STORED_NOTIFICATIONS := by
    apply List.take_of_length_le
    omega
  refine ⟨by rw [key items.length hlen1, heq], ?_⟩
  rw [key items.length hlen1, heq, htaken]

/-- C3 witness: three appends for user 1, listed with limit 2. -/
theorem store_list_reverse_order_witness :
    get_pending_notifications (appendAll redisUp 1 items3) 1 2 =
      ((mkStoreds 1 items3).reverse.take MAX_STORED_NOTIFICATIONS).take 2 :=
  (store_list_reverse_order redisUp 1 items3 2 rfl rfl (by decide)).1

/-- C4: the broadcast loop attempts delivery to every one of the user's
live connections regardless of failures among them (a failing send is
caught and that connection skipped), delivers to exactly those whose send
succeeds, and the broadcast does not modify the registry. -/
theorem broadcast_isolation (conns : List Conn) (reg : Reg) (r : RedisState)
    (uid : Nat) (msg : Message) (ts : Nat) :
    broadcastLoop conns = (conns, conns.filter (fun c => c.sendOk)) ∧
    (manager_send reg r uid msg ts).reg = reg ∧
    (manager_send reg r uid msg ts).wsAttempts =
      (if r.available = true then (reg uid).getD [] else []) ∧
    (manager_send reg r uid msg ts).wsDelivered =
      (if r.available = true then ((reg uid).getD []).filter (fun c => c.sendOk) else []) := by
  refine ⟨broadcastLoop_spec conns, ?_, ?_, ?_⟩ <;>
  · by_cases h : r.available = true
    · simp [manager_send, store_notification_ok r uid ts msg h, h, broadcastLoop_spec]
    · simp [manager_send, store_notification_err r uid ts msg
        (by revert h; cases r.available <;> simp), h]

/-- C5 counterexample: disconnecting the same connection twice — the first
call succeeds and removes user 1's key, the second call raises (KeyError,
modelled as none); disconnect for a user with no registered connections
also raises. This refutes idempotence and totality. -/
theorem disconnect_raises_cex :
    (disconnect regOne cA 1).isSome = true ∧
    ((disconnect regOne cA 1).bind (fun reg => disconnect reg cA 1)) = none ∧
    disconnect regEmpty cA 1 = none := by
  exact ⟨rfl, rfl, rfl⟩

/-- C5 (amended): disconnect is not total — it raises (returns none,
leaving the registry unchanged) when the user has no registry key or the
connection is not in the user's list, which is exactly the state after a
previous disconnect of that connection; a successful call removes the first
occurrence and deletes the user's key when the last connection is removed. -/
theorem disconnect_behavior (reg : Reg) (ws : Conn) (uid : Nat) :
    (reg uid = none → disconnect reg ws uid = none) ∧
    (∀ conns, reg uid = some conns → ws ∉ conns → disconnect reg ws uid = none) ∧
    (∀ conns, reg uid = some conns → ws ∈ conns → conns.erase ws = [] →
      disconnect reg ws uid = some (fun u => if u = uid then none else reg u)) ∧
    (∀ conns, reg uid = some conns → ws ∈ conns → conns.erase ws ≠ [] →
      disconnect reg ws uid =
        some (fun u => if u = uid then some (conns.erase ws) else reg u)) :=
  ⟨disconnect_no_key reg ws uid,
   fun conns h hm => disconnect_not_mem reg ws uid conns h hm,
   fun conns h hm he => disconnect_mem_last reg ws uid conns h hm he,
   fun conns h hm he => disconnect_mem_rest reg ws uid conns h hm he⟩

/-- C5 witness: concrete registry where user 1 holds only cA — the
disconnect removes cA and deletes the key. -/
theorem disconnect_behavior_witness :
    disconnect regOne cA 1 = some (fun u => if u = 1 then none else regOne u) :=
  (disconnect_behavior regOne cA 1).2.2.1 [cA] rfl (by decide) (by decide)

/-- C6 counterexample: two distinct appends (different messages) to user
1's stream with the same clock reading are both assigned the identical id,
refuting "the two assigned event ids are distinct"; the first append really
persisted (the stream is non-empty at the second append). -/
theorem id_reuse_cex :
    (store_notification redisUp 1 5 mA).toOption.map Prod.fst =
      some (mkNotificationId 1 5) ∧
    (store_notification rAfterA 1 5 mB).toOption.map Prod.fst =
      some (mkNotificationId 1 5) ∧
    mA ≠ mB ∧ rAfterA.lists 1 ≠ [] := by
  refine ⟨rfl, rfl, by decide, by decide⟩

/-- C6 (amended): the id assigned by append is derived from the user id
and the timestamp, and two appends to the same user's stream get distinct
ids whenever their timestamps differ (in particular whenever the
high-resolution clock strictly increases between them); with equal
timestamps the id is reused. -/
theorem notification_id_unique_ts (u t1 t2 : Nat) :
    (∀ (r : RedisState) (m : Message), r.available = true →
      (store_notification r u t1 m).toOption.map Prod.fst =
        some (mkNotificationId u t1)) ∧
    (t1 ≠ t2 → mkNotificationId u t1 ≠ mkNotificationId u t2) := by
  constructor
  · intro r m h
    rw [store_notification_ok r u t1 m h]
    rfl
  · intro hne heq
    exact hne (mkNotificationId_inj_ts u t1 t2 heq)

/-- C6 witness: concrete append id and distinctness of ids at ticks 5, 6. -/
theorem notification_id_unique_ts_witness :
    (store_notification redisUp 1 5 mA).toOption.map Prod.fst =
      some (mkNotificationId 1 5) ∧
    mkNotificationId 1 5 ≠ mkNotificationId 1 6 :=
  ⟨(notification_id_unique_ts 1 5 6).1 redisUp mA rfl,
   (notification_id_unique_ts 1 5 6).2 (by decide)⟩

/-- C7 counterexample: a payload carrying an empty (falsy) title — the code
(dict.get with a default) keeps the empty string, while the spec's
or-derivation would substitute the fixed default, refuting the claim that
falsy present fields get the default. -/
theorem push_title_falsy_cex :
    pushTitle [("title", "")] = "" ∧
    specOrGet [("title", "")] "title" "New Notification" = "New Notification" ∧
    ("" : String) ≠ "New Notification" := by
  refine ⟨rfl, rfl, by decide⟩

/-- C7 (amended): the push senders derive title and body with dict.get and
a default: the fixed default is used exactly when the key is absent from
the payload; any present value — including a falsy one such as the empty
string — is used as supplied. -/
theorem push_title_body_defaults (data : Payload) :
    (data.lookup "title" = none → pushTitle data = "New Notification") ∧
    (∀ v, data.lookup "title" = some v → pushTitle data = v) ∧
    (data.lookup "body" = none → pushBody data = "You have a new notification") ∧
    (∀ v, data.lookup "body" = some v → pushBody data = v) := by
  refine ⟨?_, ?_, ?_, ?_⟩
  · intro h; simp [pushTitle, dictGetD, h]
  · intro v h; simp [pushTitle, dictGetD, h]
  · intro h; simp [pushBody, dictGetD, h]
  · intro v h; simp [pushBody, dictGetD, h]

/-- C7 witness: absent keys get the defaults; a present title is passed
through. -/
theorem push_title_body_defaults_witness :
    pushTitle [] = "New Notification" ∧ pushTitle [("title", "x")] = "x" :=
  ⟨(push_title_body_defaults []).1 rfl,
   (push_title_body_defaults [("title", "x")]).2.1 "x" rfl⟩

/-- C8 counterexample: a device with is_active = false is loaded by
_get_user_devices and the Email Channel Sender is invoked for it, refuting
"inactive devices of the user are never passed to a Channel Sender". -/
theorem inactive_device_cex :
    dInactive.is_active = false ∧
    get_user_devices [dInactive] 1 = [dInactive] ∧
    (service_send regOne redisUp [dInactive] 1 "document_processed" [] 5).devAttempts =
      [(dInactive, .delivered true)] := by
  refine ⟨rfl, by decide, by decide⟩

/-- C8 (amended): the Dispatcher loads every device whose user_id matches,
with no is_active filter, and (when no delivery raises) the fan-out
attempts exactly that list — so inactive devices are passed to Channel
Senders as well. -/
theorem devices_filtered_by_user_only (db : List UserDevice) (uid : Nat)
    (d : UserDevice) (msg : Message) :
    (d ∈ get_user_devices db uid ↔ d ∈ db ∧ d.user_id = uid) ∧
    ((fanoutDevices msg (get_user_devices db uid)).2 = false →
      (fanoutDevices msg (get_user_devices db uid)).1.map Prod.fst =
        get_user_devices db uid) := by
  constructor
  · simp [get_user_devices, List.mem_filter]
  · exact fanout_no_raise_trace msg _

/-- C8 witness: the inactive device is among user 1's loaded devices and
the fan-out trace covers both devices. -/
theorem devices_filtered_by_user_only_witness :
    (dInactive ∈ get_user_devices [dEmail, dInactive] 1 ↔
      dInactive ∈ [dEmail, dInactive] ∧ dInactive.user_id = 1) ∧
    (fanoutDevices mA (get_user_devices [dEmail, dInactive] 1)).1.map Prod.fst =
      get_user_devices [dEmail, dInactive] 1 :=
  ⟨(devices_filtered_by_user_only [dEmail, dInactive] 1 dInactive mA).1,
   (devices_filtered_by_user_only [dEmail, dInactive] 1 dInactive mA).2 (by decide)⟩

/-- C9: get_pending_notifications never propagates an error: it returns
the raw read's list when that succeeds, and the empty list whenever the
raw read raises — in particular when the backing store is unreachable or
when any fetched blob fails to deserialize. -/
theorem get_pending_catches_errors (r : RedisState) (uid : Nat) (limit : Nat) :
    (get_pending_raw r uid limit = none → get_pending_notifications r uid limit = []) ∧
    (∀ l, get_pending_raw r uid limit = some l →
      get_pending_notifications r uid limit = l) ∧
    (r.available = false → get_pending_notifications r uid limit = []) ∧
    (Blob.corrupt ∈ lrangeFromZero (r.lists uid) ((limit : Int) - 1) →
      get_pending_notifications r uid limit = []) := by
  refine ⟨?_, ?_, ?_, ?_⟩
  · intro h; simp [get_pending_notifications, h]
  · intro l h; simp [get_pending_notifications, h]
  · intro h; simp [get_pending_notifications, get_pending_raw, h]
  · intro h
    have hc := deserializeAll_corrupt _ h
    by_cases ha : r.available = true
    · simp [get_pending_notifications, get_pending_raw, ha, hc]
    · simp [get_pending_notifications, get_pending_raw, ha]

/-- C9 witness: unreachable store and corrupt blob both yield the empty
list rather than an error. -/
theorem get_pending_catches_errors_witness :
    get_pending_notifications redisDown 1 50 = [] ∧
    get_pending_notifications redisCorrupt 1 50 = [] :=
  ⟨(get_pending_catches_errors redisDown 1 50).2.2.1 rfl,
   (get_pending_catches_errors redisCorrupt 1 50).2.2.2 (by decide)⟩

/-- C10: the registry invariant — every present user_id key maps to a
non-empty connection list — is preserved by connect and by every
successful disconnect; connect always leaves the user's key present, and
disconnecting the user's sole connection deletes the key entirely. -/
theorem registry_key_nonempty_invariant (reg : Reg) (ws : Conn) (uid : Nat)
    (hInv : RegInvariant reg) :
    RegInvariant (connect reg ws uid) ∧
    connect reg ws uid uid ≠ none ∧
    (∀ reg', disconnect reg ws uid = some reg' → RegInvariant reg') ∧
    (reg uid = some [ws] → ∀ reg', disconnect reg ws uid = some reg' →
      reg' uid = none) := by
  refine ⟨?_, ?_, ?_, ?_⟩
  · intro u l h
    simp only [connect] at h
    by_cases hu : u = uid
    · rw [if_pos hu] at h
      injection h with h'
      rw [← h']
      simp
    · rw [if_neg hu] at h
      exact hInv u l h
  · simp [connect]
  · intro reg' h u l hl
    cases hc : reg uid with
    | none =>
      rw [disconnect_no_key reg ws uid hc] at h
      cases h
    | some conns =>
      by_cases hmem : ws ∈ conns
      · by_cases he : conns.erase ws = []
        · rw [disconnect_mem_last reg ws uid conns hc hmem he] at h
          injection h with h'
          rw [← h'] at hl
          simp only at hl
          by_cases hu : u = uid
          · rw [if_pos hu] at hl; cases hl
          · rw [if_neg hu] at hl; exact hInv u l hl
        · rw [disconnect_mem_rest reg ws uid conns hc hmem he] at h
          injection h with h'
          rw [← h'] at hl
          simp only at hl
          by_cases hu : u = uid
          · rw [if_pos hu] at hl
            injection hl with h2
            rw [← h2]
            exact he
          · rw [if_neg hu] at hl; exact hInv u l hl
      · rw [disconnect_not_mem reg ws uid conns hc hmem] at h
        cases h
  · intro hws reg' h
    have he : ([ws] : List Conn).erase ws = [] := by simp
    rw [disconnect_mem_last reg ws uid [ws] hws (by simp) he] at h
    injection h with h'
    rw [← h']
    simp

/-- C10 witness: connecting the first connection of user 1 to the empty
registry preserves the invariant and creates the key. -/
theorem registry_key_nonempty_invariant_witness :
    RegInvariant (connect regEmpty cA 1) ∧ connect regEmpty cA 1 1 ≠ none :=
  ⟨(registry_key_nonempty_invariant regEmpty cA 1
      (fun u l h => by simp [regEmpty] at h)).1,
   (registry_key_nonempty_invariant regEmpty cA 1
      (fun u l h => by simp [regEmpty] at h)).2.1⟩
